import Mathlib

/-!
A shallow embedding of the Luxury Chocolates backend (src/main.py and
src/schemas.py): product catalog, seeding, checkout total computation and
mock payment confirmation over a document store, with proofs of the
specified properties.

The document store is an association list per collection, keyed by the
string form of the store-generated ObjectId.  Python exceptions are the
ApiError type: HTTPException carries its status code and detail string,
every other exception is the exn constructor; the generic handler of each
endpoint rewraps exn as a 500 HTTPException.  Each handler returns the
resulting store state next to its response, so that error paths visibly
leave the store unchanged.
-/

namespace Shop

/-- Product record (schemas.Product), as stored in the product collection. -/
structure Product where
  name : String
  description : Option String
  price_cents : Int
  image : Option String
  cacao_percent : Option Int
  in_stock : Bool
  stock_qty : Option Int
  tags : List String
deriving DecidableEq

/-- Order line item snapshot (schemas.OrderItem). -/
structure OrderItem where
  product_id : String
  quantity : Int
  unit_price_cents : Option Int
  subtotal_cents : Option Int
deriving DecidableEq

/-- Pydantic validation of OrderItem: quantity ge 1; the optional money
fields are checked ge 0 when present. -/
def OrderItem.validates (it : OrderItem) : Bool :=
  decide (1 ≤ it.quantity) &&
    (match it.unit_price_cents with
     | none => true
     | some u => decide (0 ≤ u)) &&
    (match it.subtotal_cents with
     | none => true
     | some sub => decide (0 ≤ sub))

/-- Customer record (schemas.CustomerInfo). -/
structure CustomerInfo where
  name : String
  email : String
  address_line1 : Option String
  address_line2 : Option String
  city : Option String
  state : Option String
  postal_code : Option String
  country : Option String
deriving DecidableEq

/-- Order document (schemas.Order). -/
structure Order where
  items : List OrderItem
  currency : String
  total_cents : Int
  status : String
  payment_intent_id : Option String
  client_secret : Option String
  customer : Option CustomerInfo
deriving DecidableEq

/-- The document store: the product and order collections as association
lists keyed by the canonical string form of the document id. -/
structure Store where
  products : List (String × Product)
  orders : List (String × Order)
deriving DecidableEq

/-- Hex digit in either case, as accepted by bson.ObjectId. -/
def isHexDigitChar (c : Char) : Bool :=
  c.isDigit || (97 ≤ c.toNat && c.toNat ≤ 102) || (65 ≤ c.toNat && c.toNat ≤ 70)

/-- A string is a well-formed ObjectId when it is 24 hex characters;
bson.ObjectId raises InvalidId on anything else. -/
def isValidOid (s : String) : Bool :=
  s.length == 24 && s.toList.all isHexDigitChar

/-- Canonical string form of an ObjectId: bson lowercases the hex digits. -/
def oidCanon (s : String) : String :=
  String.mk (s.toList.map Char.toLower)

/-- Message of the bson InvalidId exception raised on a malformed ObjectId
string. -/
def invalidIdMsg (s : String) : String :=
  "InvalidId: " ++ s ++ " is not a valid ObjectId"

/-- Errors: http is fastapi.HTTPException with its status code and detail;
exn is any other Python exception with its message. -/
inductive ApiError where
  | http (status : Nat) (detail : String)
  | exn (msg : String)
deriving DecidableEq

/-- The generic handler tail of checkout and confirm_payment: an
HTTPException re-raises unchanged, any other exception becomes
HTTPException(500, str(e)). -/
def toServerError : ApiError → ApiError
  | .http st d => .http st d
  | .exn msg => .http 500 msg

/-- A 4xx-equivalent status code. -/
def isClientStatus (n : Nat) : Bool :=
  decide (400 ≤ n) && decide (n < 500)

/-- find_one on the product collection by ObjectId, returning the stored
key together with the document. -/
def Store.findProductEntry (s : Store) (oid : String) : Option (String × Product) :=
  s.products.find? (fun p => p.1 == oidCanon oid)

/-- find_one on the product collection by ObjectId. -/
def Store.findProduct (s : Store) (oid : String) : Option Product :=
  (s.findProductEntry oid).map Prod.snd

/-- find_one on the order collection by ObjectId. -/
def Store.findOrder (s : Store) (oid : String) : Option Order :=
  (s.orders.find? (fun p => p.1 == oidCanon oid)).map Prod.snd

/-- update_one setting the status field: rewrites the status of the first
matching order document and nothing else. -/
def updateStatusFirst (k newStatus : String) : List (String × Order) → List (String × Order)
  | [] => []
  | p :: rest =>
    if p.1 == k then (p.1, { p.2 with status := newStatus }) :: rest
    else p :: updateStatusFirst k newStatus rest

/-- The order-collection write performed by confirm_payment. -/
def Store.updateOrderStatus (s : Store) (oid newStatus : String) : Store :=
  { s with orders := updateStatusFirst (oidCanon oid) newStatus s.orders }

/-- Checkout request line (main.CheckoutItem): no lower bound on quantity. -/
structure CheckoutItem where
  product_id : String
  quantity : Int
deriving DecidableEq

/-- Checkout request body (main.CheckoutRequest). -/
structure CheckoutRequest where
  items : List CheckoutItem
  customer : Option CustomerInfo
deriving DecidableEq

/-- Checkout response body (main.CheckoutResponse). -/
structure CheckoutResponse where
  order_id : String
  client_secret : String
  amount_cents : Int
  currency : String
  status : String
deriving DecidableEq

/-- Loop of main.compute_totals over the requested items, carrying the
running total and the prepared OrderItem list.  Per item: a malformed id
raises InvalidId; a missing document or a false in_stock flag raises
HTTPException(400, ...); otherwise the OrderItem snapshot is built, whose
pydantic validation may raise. -/
def compute_totalsGo (s : Store) :
    List CheckoutItem → Int → List OrderItem → Except ApiError (Int × List OrderItem)
  | [], total, prepared => .ok (total, prepared)
  | it :: rest, total, prepared =>
    if isValidOid it.product_id = false then
      .error (.exn (invalidIdMsg it.product_id))
    else
      match s.findProductEntry it.product_id with
      | none => .error (.http 400 ("Product unavailable: " ++ it.product_id))
      | some entry =>
        if entry.2.in_stock = false then
          .error (.http 400 ("Product unavailable: " ++ it.product_id))
        else
          let price := entry.2.price_cents
          let subtotal := price * it.quantity
          let item : OrderItem :=
            { product_id := entry.1, quantity := it.quantity
            , unit_price_cents := some price, subtotal_cents := some subtotal }
          if item.validates then
            compute_totalsGo s rest (total + subtotal) (prepared ++ [item])
          else
            .error (.exn "ValidationError: OrderItem")

/-- main.compute_totals. -/
def compute_totals (s : Store) (items : List CheckoutItem) :
    Except ApiError (Int × List OrderItem) :=
  compute_totalsGo s items 0 []

/-- main.checkout.  Modelled from the spec: the order id assigned by
create_document (database.py, section 4.4 of the spec, not under src/) and
the random client secret are parameters; create_document serializes the
validated Order into the order collection under that id.  Order validation
(total_cents ge 0) happens at construction, before the insert; the generic
handler turns it, like every non-HTTP exception, into a 500. -/
def checkout (s : Store) (orderId secret : String) (req : CheckoutRequest) :
    Store × Except ApiError CheckoutResponse :=
  match compute_totals s req.items with
  | .error e => (s, .error (toServerError e))
  | .ok (total, prepared) =>
    if total < 0 then
      (s, .error (.http 500 "ValidationError: Order"))
    else
      let od : Order :=
        { items := prepared, currency := "usd", total_cents := total, status := "pending"
        , payment_intent_id := none, client_secret := some secret, customer := req.customer }
      ({ s with orders := s.orders ++ [(orderId, od)] },
       .ok { order_id := orderId, client_secret := secret, amount_cents := total
           , currency := "usd", status := "pending" })

/-- Payment confirmation request body (main.PaymentConfirmRequest). -/
structure PaymentConfirmRequest where
  order_id : String
  client_secret : String
  success : Bool
deriving DecidableEq

/-- Payment confirmation response body (main.PaymentConfirmResponse). -/
structure PaymentConfirmResponse where
  order_id : String
  status : String
deriving DecidableEq

/-- main.confirm_payment: a malformed order id raises InvalidId, rewrapped
to a 500 by the generic handler; a missing order is a 404; a mismatched
client secret is a 400 raised before any write; otherwise the status of
the stored order is set to paid or failed according to the success flag. -/
def confirm_payment (s : Store) (req : PaymentConfirmRequest) :
    Store × Except ApiError PaymentConfirmResponse :=
  if isValidOid req.order_id = false then
    (s, .error (.http 500 (invalidIdMsg req.order_id)))
  else
    match s.findOrder req.order_id with
    | none => (s, .error (.http 404 "Order not found"))
    | some doc =>
      if doc.client_secret ≠ some req.client_secret then
        (s, .error (.http 400 "Invalid client secret"))
      else
        let newStatus := if req.success then "paid" else "failed"
        (s.updateOrderStatus req.order_id newStatus,
         .ok { order_id := req.order_id, status := newStatus })

/-- Seed response body of main.seed_products. -/
structure SeedResponse where
  seeded : Bool
  count : Nat
deriving DecidableEq

/-- First demo record inserted by main.seed_products. -/
def demoProduct1 : Product :=
  { name := "Grand Cru Truffle Box"
  , description := some "Assortment of hand-rolled ganache truffles dusted with 24k gold."
  , price_cents := 8900
  , image := some "https://images.unsplash.com/photo-1541976076758-347942db1970?q=80&w=1200&auto=format&fit=crop"
  , cacao_percent := some 72
  , in_stock := true
  , stock_qty := some 50
  , tags := ["truffles", "gold", "gift"] }

/-- Second demo record inserted by main.seed_products. -/
def demoProduct2 : Product :=
  { name := "Single-Origin Noir Bar"
  , description := some "Peruvian single-origin 85% cacao with notes of cherry and espresso."
  , price_cents := 1500
  , image := some "https://images.unsplash.com/photo-1499636136210-6f4ee915583e?q=80&w=1200&auto=format&fit=crop"
  , cacao_percent := some 85
  , in_stock := true
  , stock_qty := some 200
  , tags := ["bar", "single-origin", "vegan"] }

/-- Third demo record inserted by main.seed_products. -/
def demoProduct3 : Product :=
  { name := "Praline Jewels"
  , description := some "Hazelnut praline bonbons finished with shimmering cocoa butter."
  , price_cents := 4200
  , image := some "https://images.unsplash.com/photo-1606313564200-e75d5e30476e?q=80&w=1200&auto=format&fit=crop"
  , cacao_percent := some 64
  , in_stock := true
  , stock_qty := some 120
  , tags := ["bonbons", "praline", "assortment"] }

/-- main.seed_products: on a non-empty catalog without force, a no-op
reporting the current count; otherwise (after deleting everything when
force is set) the three demo records are inserted under the fresh ids
assigned by the store, and the new count is reported. -/
def seed_products (s : Store) (force : Bool) (i1 i2 i3 : String) : Store × SeedResponse :=
  let count := s.products.length
  if 0 < count ∧ force = false then
    (s, { seeded := false, count := count })
  else
    let s1 := if force then { s with products := [] } else s
    let s2 := { s1 with products :=
      s1.products ++ [(i1, demoProduct1), (i2, demoProduct2), (i3, demoProduct3)] }
    (s2, { seeded := true, count := s2.products.length })

/-- Product output shape (main.ProductOut): the stored product fields next
to the exposed string id. -/
structure ProductOut where
  product : Product
  id : String
deriving DecidableEq

/-- main.create_product.  Modelled from the spec: create_document
(database.py, section 4.4 of the spec, not under src/) inserts the
validated record and returns the fresh id, here the pid parameter; the
post-insert find_one reply is the refetch parameter, since the live store
may fail to return the document.  A missing refetch raises
HTTPException(404, ...), which the blanket except clause of this endpoint
catches like any exception and rewraps as a 500 whose detail is the
printed form of the 404. -/
def create_product (s : Store) (pid : String) (p : Product) (refetch : Option Product) :
    Store × Except ApiError ProductOut :=
  let s2 := { s with products := s.products ++ [(pid, p)] }
  match refetch with
  | none => (s2, .error (.http 500 "404: Product not found after creation"))
  | some doc => (s2, .ok { product := doc, id := pid })

/-- Spec-side formula (section 8 of the spec): the sum over requested items
of the catalog price times the requested quantity; items that do not
resolve contribute zero. -/
def requestedSubtotal (s : Store) (it : CheckoutItem) : Int :=
  match s.findProduct it.product_id with
  | some p => p.price_cents * it.quantity
  | none => 0

/-- Spec-side formula: total over a list of requested items. -/
def requestedSum (s : Store) : List CheckoutItem → Int
  | [] => 0
  | it :: rest => requestedSubtotal s it + requestedSum s rest

/-- A requested item that checkout can process: well-formed id resolving to
an in-stock product with a validated (nonnegative) price, and a quantity
accepted by OrderItem validation. -/
def goodItemB (s : Store) (it : CheckoutItem) : Bool :=
  isValidOid it.product_id && decide (1 ≤ it.quantity) &&
    (match s.findProduct it.product_id with
     | some p => p.in_stock && decide (0 ≤ p.price_cents)
     | none => false)

/-- Relation between order-collection entries stating that the key and
every field except status agree. -/
def frameRel (p q : String × Order) : Prop :=
  p.1 = q.1 ∧ p.2.items = q.2.items ∧ p.2.currency = q.2.currency ∧
    p.2.total_cents = q.2.total_cents ∧ p.2.payment_intent_id = q.2.payment_intent_id ∧
    p.2.client_secret = q.2.client_secret ∧ p.2.customer = q.2.customer

/-- Empty store, for concrete instantiations. -/
def emptyStore : Store :=
  { products := [], orders := [] }

/-- Concrete product id, for concrete instantiations. -/
def pOid : String :=
  "aaaaaaaaaaaaaaaaaaaaaaaa"

/-- Concrete order id, for concrete instantiations. -/
def oOid : String :=
  "cccccccccccccccccccccccc"

/-- Concrete absent product id, for concrete instantiations. -/
def missingOid : String :=
  "dddddddddddddddddddddddd"

/-- Concrete in-stock product, for concrete instantiations. -/
def sampleProduct : Product :=
  { name := "Bar", description := none, price_cents := 1500, image := none
  , cacao_percent := some 70, in_stock := true, stock_qty := some 5, tags := [] }

/-- Concrete pending order, for concrete instantiations. -/
def sampleOrder : Order :=
  { items := [], currency := "usd", total_cents := 0, status := "pending"
  , payment_intent_id := none, client_secret := some "sek", customer := none }

/-- Concrete store holding one product and one order, for concrete
instantiations. -/
def sampleStore : Store :=
  { products := [(pOid, sampleProduct)], orders := [(oOid, sampleOrder)] }

end Shop

namespace Shop

theorem toServerError_http (st : Nat) (d : String) :
    toServerError (.http st d) = .http st d := rfl

theorem toServerError_exn (msg : String) :
    toServerError (.exn msg) = .http 500 msg := rfl

theorem goodItemB_eq_true (s : Store) (it : CheckoutItem) :
    goodItemB s it = true ↔
      isValidOid it.product_id = true ∧ 1 ≤ it.quantity ∧
        ∃ p, s.findProduct it.product_id = some p ∧ p.in_stock = true ∧ 0 ≤ p.price_cents := by
  unfold goodItemB
  cases hf : s.findProduct it.product_id with
  | none => simp [hf]
  | some p => simp [hf, and_assoc]

theorem compute_totalsGo_nil (s : Store) (total : Int) (prepared : List OrderItem) :
    compute_totalsGo s [] total prepared = .ok (total, prepared) := rfl

theorem compute_totalsGo_invalid (s : Store) (it : CheckoutItem) (rest : List CheckoutItem)
    (total : Int) (prepared : List OrderItem)
    (h : isValidOid it.product_id = false) :
    compute_totalsGo s (it :: rest) total prepared = .error (.exn (invalidIdMsg it.product_id)) := by
  simp [compute_totalsGo, h]

theorem compute_totalsGo_notfound (s : Store) (it : CheckoutItem) (rest : List CheckoutItem)
    (total : Int) (prepared : List OrderItem)
    (hv : isValidOid it.product_id = true)
    (hf : s.findProductEntry it.product_id = none) :
    compute_totalsGo s (it :: rest) total prepared
      = .error (.http 400 ("Product unavailable: " ++ it.product_id)) := by
  simp [compute_totalsGo, hv, hf]

theorem compute_totalsGo_outofstock (s : Store) (it : CheckoutItem) (rest : List CheckoutItem)
    (total : Int) (prepared : List OrderItem) (k : String) (p : Product)
    (hv : isValidOid it.product_id = true)
    (hf : s.findProductEntry it.product_id = some (k, p))
    (hs : p.in_stock = false) :
    compute_totalsGo s (it :: rest) total prepared
      = .error (.http 400 ("Product unavailable: " ++ it.product_id)) := by
  simp [compute_totalsGo, hv, hf, hs]

theorem compute_totalsGo_instock (s : Store) (it : CheckoutItem) (rest : List CheckoutItem)
    (total : Int) (prepared : List OrderItem) (k : String) (p : Product)
    (hv : isValidOid it.product_id = true)
    (hf : s.findProductEntry it.product_id = some (k, p))
    (hs : p.in_stock = true) :
    compute_totalsGo s (it :: rest) total prepared
      = (if (OrderItem.mk k it.quantity (some p.price_cents)
              (some (p.price_cents * it.quantity))).validates then
           compute_totalsGo s rest (total + p.price_cents * it.quantity)
             (prepared ++ [OrderItem.mk k it.quantity (some p.price_cents)
               (some (p.price_cents * it.quantity))])
         else .error (.exn "ValidationError: OrderItem")) := by
  simp [compute_totalsGo, hv, hf, hs]

theorem validates_of_bounds (k : String) (q u : Int) (hq : 1 ≤ q) (hu : 0 ≤ u) :
    (OrderItem.mk k q (some u) (some (u * q))).validates = true := by
  have hsub : 0 ≤ u * q := mul_nonneg hu (le_trans zero_le_one hq)
  simp [OrderItem.validates, hq, hu, hsub]

theorem findProduct_entry (s : Store) (oid : String) (p : Product)
    (h : s.findProduct oid = some p) :
    ∃ k, s.findProductEntry oid = some (k, p) := by
  unfold Store.findProduct at h
  rcases Option.map_eq_some'.mp h with ⟨⟨k, d⟩, he, hd⟩
  have hd2 : d = p := hd
  subst hd2
  exact ⟨k, he⟩

theorem findProduct_entry_none (s : Store) (oid : String)
    (h : s.findProduct oid = none) :
    s.findProductEntry oid = none := by
  unfold Store.findProduct at h
  exact Option.map_eq_none'.mp h

theorem compute_totalsGo_append (s : Store) (rest : List CheckoutItem)
    (pre : List CheckoutItem) (hg : ∀ it ∈ pre, goodItemB s it = true) :
    ∀ (t : Int) (acc : List OrderItem), ∃ out : List OrderItem,
      compute_totalsGo s (pre ++ rest) t acc
          = compute_totalsGo s rest (t + requestedSum s pre) (acc ++ out) ∧
        ∀ item ∈ out, ∃ u : Int,
          item.unit_price_cents = some u ∧ item.subtotal_cents = some (u * item.quantity) := by
  induction pre with
  | nil =>
    intro t acc
    exact ⟨[], by simp [requestedSum], by simp⟩
  | cons it pre ih =>
    intro t acc
    have hit := (goodItemB_eq_true s it).mp (hg it (List.mem_cons_self it pre))
    obtain ⟨hv, hq, p, hfp, hstock, hprice⟩ := hit
    obtain ⟨k, hke⟩ := findProduct_entry s it.product_id p hfp
    have hval := validates_of_bounds k it.quantity p.price_cents hq hprice
    have hstep := compute_totalsGo_instock s it (pre ++ rest) t acc k p hv hke hstock
    rw [hval, if_pos rfl] at hstep
    obtain ⟨out, hout, hprops⟩ :=
      ih (fun x hx => hg x (List.mem_cons_of_mem it hx))
        (t + p.price_cents * it.quantity)
        (acc ++ [OrderItem.mk k it.quantity (some p.price_cents)
          (some (p.price_cents * it.quantity))])
    refine ⟨OrderItem.mk k it.quantity (some p.price_cents)
        (some (p.price_cents * it.quantity)) :: out, ?_, ?_⟩
    · rw [List.cons_append, hstep, hout]
      have hsum : requestedSum s (it :: pre)
          = p.price_cents * it.quantity + requestedSum s pre := by
        simp [requestedSum, requestedSubtotal, hfp]
      rw [hsum, ← add_assoc]
      simp
    · intro item hmem
      rcases List.mem_cons.mp hmem with h1 | h2
      · exact ⟨p.price_cents, by simp [h1], by simp [h1]⟩
      · exact hprops item h2

theorem requestedSum_nonneg (s : Store) (items : List CheckoutItem)
    (hg : ∀ it ∈ items, goodItemB s it = true) :
    0 ≤ requestedSum s items := by
  induction items with
  | nil => simp [requestedSum]
  | cons it rest ih =>
    have hit := (goodItemB_eq_true s it).mp (hg it (List.mem_cons_self it rest))
    obtain ⟨hv, hq, p, hfp, hstock, hprice⟩ := hit
    have h1 : 0 ≤ requestedSubtotal s it := by
      simp only [requestedSubtotal, hfp]
      exact mul_nonneg hprice (le_trans zero_le_one hq)
    have h2 := ih (fun x hx => hg x (List.mem_cons_of_mem it hx))
    simpa [requestedSum] using add_nonneg h1 h2

theorem compute_totals_ok (s : Store) (items : List CheckoutItem)
    (hg : ∀ it ∈ items, goodItemB s it = true) :
    ∃ out : List OrderItem,
      compute_totals s items = .ok (requestedSum s items, out) ∧
        ∀ item ∈ out, ∃ u : Int,
          item.unit_price_cents = some u ∧ item.subtotal_cents = some (u * item.quantity) := by
  obtain ⟨out, hout, hprops⟩ := compute_totalsGo_append s [] items hg 0 []
  refine ⟨out, ?_, hprops⟩
  unfold compute_totals
  have : items ++ ([] : List CheckoutItem) = items := by simp
  rw [← this, hout]
  simp [compute_totalsGo_nil]

end Shop

namespace Shop

theorem find?_updateStatusFirst (k newStatus : String) (l : List (String × Order)) :
    (updateStatusFirst k newStatus l).find? (fun p => p.1 == k)
      = (l.find? (fun p => p.1 == k)).map (fun p => (p.1, { p.2 with status := newStatus })) := by
  induction l with
  | nil => simp [updateStatusFirst]
  | cons p rest ih =>
    by_cases h : (p.1 == k) = true
    · simp [updateStatusFirst, h, List.find?]
    · simp only [Bool.not_eq_true] at h
      simp [updateStatusFirst, h, List.find?, ih]

theorem findOrder_updateOrderStatus (s : Store) (oid newStatus : String) :
    (s.updateOrderStatus oid newStatus).findOrder oid
      = (s.findOrder oid).map (fun d => { d with status := newStatus }) := by
  unfold Store.findOrder Store.updateOrderStatus
  simp only [find?_updateStatusFirst]
  cases s.orders.find? (fun p => p.1 == oidCanon oid) <;> rfl

theorem confirm_payment_ok (s : Store) (req : PaymentConfirmRequest) (doc : Order)
    (hv : isValidOid req.order_id = true)
    (hf : s.findOrder req.order_id = some doc)
    (hs : doc.client_secret = some req.client_secret) :
    confirm_payment s req
      = (s.updateOrderStatus req.order_id (if req.success then "paid" else "failed"),
         .ok ⟨req.order_id, if req.success then "paid" else "failed"⟩) := by
  simp [confirm_payment, hv, hf, hs]

theorem frameRel_refl (p : String × Order) : frameRel p p :=
  ⟨rfl, rfl, rfl, rfl, rfl, rfl, rfl⟩

theorem forall₂_frameRel_refl (l : List (String × Order)) : List.Forall₂ frameRel l l :=
  List.forall₂_same.mpr (fun x _ => frameRel_refl x)

theorem updateStatusFirst_frame (k newStatus : String) (l : List (String × Order)) :
    List.Forall₂ frameRel l (updateStatusFirst k newStatus l) := by
  induction l with
  | nil => exact List.Forall₂.nil
  | cons p rest ih =>
    by_cases h : (p.1 == k) = true
    · simp only [updateStatusFirst, h, if_true]
      exact List.Forall₂.cons ⟨rfl, rfl, rfl, rfl, rfl, rfl, rfl⟩ (forall₂_frameRel_refl rest)
    · simp only [updateStatusFirst, h, if_false]
      exact List.Forall₂.cons (frameRel_refl p) ih

theorem confirm_payment_store_cases (s : Store) (req : PaymentConfirmRequest) :
    (confirm_payment s req).1 = s ∨
      ∃ newStatus, (confirm_payment s req).1 = s.updateOrderStatus req.order_id newStatus := by
  unfold confirm_payment
  by_cases hv : isValidOid req.order_id = false
  · simp [hv]
  · simp only [hv, if_false]
    cases hf : s.findOrder req.order_id with
    | none => simp
    | some doc =>
      by_cases hs : doc.client_secret ≠ some req.client_secret
      · simp [hs]
      · simp only [hs, if_false]
        exact Or.inr ⟨if req.success then "paid" else "failed", rfl⟩

theorem confirm_payment_products (s : Store) (req : PaymentConfirmRequest) :
    (confirm_payment s req).1.products = s.products := by
  rcases confirm_payment_store_cases s req with h | ⟨st, h⟩
  · rw [h]
  · rw [h]; rfl

theorem confirm_payment_frame (s : Store) (req : PaymentConfirmRequest) :
    List.Forall₂ frameRel s.orders (confirm_payment s req).1.orders := by
  rcases confirm_payment_store_cases s req with h | ⟨st, h⟩
  · rw [h]; exact forall₂_frameRel_refl s.orders
  · rw [h]; exact updateStatusFirst_frame (oidCanon req.order_id) st s.orders

end Shop

namespace Shop

/-- C1: for every checkout request whose items all reference existing,
in-stock products (with validated prices and accepted quantities), the
returned amount_cents equals the sum over requested items of the catalog
price_cents times the requested quantity, each prepared OrderItem carries
subtotal_cents equal to its unit_price_cents times its quantity, and the
order document appended to the order collection stores total_cents equal
to the returned amount_cents. -/
theorem claim_C1_checkout_totals (s : Store) (orderId secret : String) (req : CheckoutRequest)
    (hg : ∀ it ∈ req.items, goodItemB s it = true) :
    ∃ od : Order,
      checkout s orderId secret req
          = ({ s with orders := s.orders ++ [(orderId, od)] },
             .ok ⟨orderId, secret, requestedSum s req.items, "usd", "pending"⟩) ∧
        od.total_cents = requestedSum s req.items ∧
        ∀ item ∈ od.items, ∃ u : Int,
          item.unit_price_cents = some u ∧ item.subtotal_cents = some (u * item.quantity) := by
  obtain ⟨out, hct, hprops⟩ := compute_totals_ok s req.items hg
  have hnn := requestedSum_nonneg s req.items hg
  refine ⟨{ items := out, currency := "usd", total_cents := requestedSum s req.items
          , status := "pending", payment_intent_id := none, client_secret := some secret
          , customer := req.customer }, ?_, rfl, hprops⟩
  simp [checkout, hct, not_lt.mpr hnn]

/-- Witness for C1 at a one-item request against the sample store. -/
theorem claim_C1_checkout_totals_witness :
    ∃ od : Order,
      checkout sampleStore "o1" "s2" ⟨[⟨pOid, 2⟩], none⟩
          = ({ sampleStore with orders := sampleStore.orders ++ [("o1", od)] },
             .ok ⟨"o1", "s2", requestedSum sampleStore [⟨pOid, 2⟩], "usd", "pending"⟩) ∧
        od.total_cents = requestedSum sampleStore [⟨pOid, 2⟩] ∧
        ∀ item ∈ od.items, ∃ u : Int,
          item.unit_price_cents = some u ∧ item.subtotal_cents = some (u * item.quantity) :=
  claim_C1_checkout_totals sampleStore "o1" "s2" ⟨[⟨pOid, 2⟩], none⟩ (by decide)

/-- C2: for an existing order whose stored client_secret matches the
supplied one, confirm_payment sets the status to paid when success is true
and to failed when success is false, whatever the current status was, and
a repeated call with the opposite success flag overwrites the previously
written terminal status. -/
theorem claim_C2_confirm_overwrites (s : Store) (req : PaymentConfirmRequest) (doc : Order)
    (hv : isValidOid req.order_id = true)
    (hf : s.findOrder req.order_id = some doc)
    (hs : doc.client_secret = some req.client_secret) :
    (confirm_payment s req).2
        = .ok ⟨req.order_id, if req.success then "paid" else "failed"⟩ ∧
      (confirm_payment s req).1.findOrder req.order_id
        = some { doc with status := if req.success then "paid" else "failed" } ∧
      (confirm_payment (confirm_payment s req).1
          ⟨req.order_id, req.client_secret, !req.success⟩).2
        = .ok ⟨req.order_id, if !req.success then "paid" else "failed"⟩ ∧
      (confirm_payment (confirm_payment s req).1
          ⟨req.order_id, req.client_secret, !req.success⟩).1.findOrder req.order_id
        = some { doc with status := if !req.success then "paid" else "failed" } := by
  have h1 := confirm_payment_ok s req doc hv hf hs
  have hfind1 : (confirm_payment s req).1.findOrder req.order_id
      = some { doc with status := if req.success then "paid" else "failed" } := by
    rw [h1, findOrder_updateOrderStatus, hf]
    rfl
  have h2 := confirm_payment_ok (confirm_payment s req).1
      ⟨req.order_id, req.client_secret, !req.success⟩
      { doc with status := if req.success then "paid" else "failed" } hv hfind1 hs
  refine ⟨by rw [h1], hfind1, by rw [h2], ?_⟩
  rw [h2]
  show ((confirm_payment s req).1.updateOrderStatus req.order_id
      (if !req.success then "paid" else "failed")).findOrder req.order_id = _
  rw [findOrder_updateOrderStatus, hfind1]
  rfl

/-- Witness for C2 on the sample order: success then failure. -/
theorem claim_C2_confirm_overwrites_witness :
    (confirm_payment sampleStore ⟨oOid, "sek", true⟩).2 = .ok ⟨oOid, "paid"⟩ ∧
      (confirm_payment sampleStore ⟨oOid, "sek", true⟩).1.findOrder oOid
        = some { sampleOrder with status := "paid" } ∧
      (confirm_payment (confirm_payment sampleStore ⟨oOid, "sek", true⟩).1
          ⟨oOid, "sek", false⟩).2 = .ok ⟨oOid, "failed"⟩ ∧
      (confirm_payment (confirm_payment sampleStore ⟨oOid, "sek", true⟩).1
          ⟨oOid, "sek", false⟩).1.findOrder oOid
        = some { sampleOrder with status := "failed" } := by
  have h := claim_C2_confirm_overwrites sampleStore ⟨oOid, "sek", true⟩ sampleOrder
    (by decide) (by decide) rfl
  simpa using h

/-- C3: a checkout request whose first offending item has a well-formed
product id that does not resolve to a stored product, or resolves to a
product whose in_stock flag is false, fails with HTTPException 400 whose
detail names that product id, and the store, in particular the order
collection, is left unchanged. -/
theorem claim_C3_unavailable_product (s : Store) (orderId secret : String)
    (cust : Option CustomerInfo) (pre rest : List CheckoutItem) (bad : CheckoutItem)
    (hg : ∀ it ∈ pre, goodItemB s it = true)
    (hv : isValidOid bad.product_id = true)
    (hbad : s.findProduct bad.product_id = none ∨
      ∃ p, s.findProduct bad.product_id = some p ∧ p.in_stock = false) :
    checkout s orderId secret ⟨pre ++ bad :: rest, cust⟩
      = (s, .error (.http 400 ("Product unavailable: " ++ bad.product_id))) := by
  obtain ⟨out, hout, -⟩ := compute_totalsGo_append s (bad :: rest) pre hg 0 []
  have hbadstep : compute_totalsGo s (bad :: rest) (0 + requestedSum s pre) ([] ++ out)
      = .error (.http 400 ("Product unavailable: " ++ bad.product_id)) := by
    rcases hbad with hnone | ⟨p, hp, hstock⟩
    · exact compute_totalsGo_notfound s bad rest _ _ hv (findProduct_entry_none s _ hnone)
    · obtain ⟨k, hke⟩ := findProduct_entry s bad.product_id p hp
      exact compute_totalsGo_outofstock s bad rest _ _ k p hv hke hstock
  have hct : compute_totals s (pre ++ bad :: rest)
      = .error (.http 400 ("Product unavailable: " ++ bad.product_id)) := by
    unfold compute_totals
    rw [hout, hbadstep]
  simp [checkout, hct, toServerError]

/-- Witness for C3 at an absent product id against the sample store. -/
theorem claim_C3_unavailable_product_witness :
    checkout sampleStore "o2" "s3" ⟨[⟨missingOid, 1⟩], none⟩
      = (sampleStore, .error (.http 400 ("Product unavailable: " ++ missingOid))) := by
  have h := claim_C3_unavailable_product sampleStore "o2" "s3" none [] [] ⟨missingOid, 1⟩
    (by decide) (by decide) (Or.inl (by decide))
  simpa using h

/-- C4: confirm_payment on an existing order with a client_secret that
differs from the stored one returns HTTPException 400 and the whole store,
hence the order and all its fields, is unchanged. -/
theorem claim_C4_mismatched_secret (s : Store) (req : PaymentConfirmRequest) (doc : Order)
    (hv : isValidOid req.order_id = true)
    (hf : s.findOrder req.order_id = some doc)
    (hs : doc.client_secret ≠ some req.client_secret) :
    confirm_payment s req = (s, .error (.http 400 "Invalid client secret")) := by
  simp [confirm_payment, hv, hf, hs]

/-- Witness for C4 on the sample order with a wrong secret. -/
theorem claim_C4_mismatched_secret_witness :
    confirm_payment sampleStore ⟨oOid, "wrong", true⟩
      = (sampleStore, .error (.http 400 "Invalid client secret")) :=
  claim_C4_mismatched_secret sampleStore ⟨oOid, "wrong", true⟩ sampleOrder
    (by decide) (by decide) (by decide)

/-- C5: seed with force=false on a non-empty catalog is a no-op returning
seeded=false and the current count; seed with force=true deletes every
product, inserts exactly the three demo records and returns seeded=true
with the new count 3. -/
theorem claim_C5_seed (s : Store) (i1 i2 i3 : String) (h : 0 < s.products.length) :
    seed_products s false i1 i2 i3 = (s, ⟨false, s.products.length⟩) ∧
      (seed_products s true i1 i2 i3).1.products
        = [(i1, demoProduct1), (i2, demoProduct2), (i3, demoProduct3)] ∧
      (seed_products s true i1 i2 i3).1.orders = s.orders ∧
      (seed_products s true i1 i2 i3).2 = ⟨true, 3⟩ := by
  refine ⟨?_, ?_, ?_, ?_⟩ <;> simp [seed_products, h]

/-- Witness for C5 on the sample store, whose catalog holds one product. -/
theorem claim_C5_seed_witness :
    seed_products sampleStore false pOid oOid missingOid = (sampleStore, ⟨false, 1⟩) ∧
      (seed_products sampleStore true pOid oOid missingOid).1.products
        = [(pOid, demoProduct1), (oOid, demoProduct2), (missingOid, demoProduct3)] ∧
      (seed_products sampleStore true pOid oOid missingOid).1.orders = sampleStore.orders ∧
      (seed_products sampleStore true pOid oOid missingOid).2 = ⟨true, 3⟩ :=
  claim_C5_seed sampleStore pOid oOid missingOid (by decide)

/-- C7: when the document cannot be re-fetched right after insertion,
create_product fails with a 500 server fault (the internally raised 404 is
swallowed by the blanket except clause and rewrapped), not a client
error. -/
theorem claim_C7_refetch_miss (s : Store) (pid : String) (p : Product) :
    (create_product s pid p none).2
        = .error (.http 500 "404: Product not found after creation") ∧
      isClientStatus 500 = false :=
  ⟨rfl, by decide⟩

/-- C8: an order's client_secret is set at checkout from the generated
token and no operation changes it afterwards: checkout appends the new
order carrying the token it returns, a confirm_payment call (on any store,
any request) preserves the product collection and every order field other
than status, and seeding and product creation never touch the order
collection. -/
theorem claim_C8_secret_set_once (s : Store) (orderId secret : String) (req : CheckoutRequest)
    (resp : CheckoutResponse) (s2 : Store) (preq : PaymentConfirmRequest)
    (s3 : Store) (force : Bool) (j1 j2 j3 : String)
    (s4 : Store) (pid : String) (p : Product) (refetch : Option Product)
    (hok : (checkout s orderId secret req).2 = .ok resp) :
    (∃ od : Order, (checkout s orderId secret req).1.orders = s.orders ++ [(orderId, od)] ∧
        od.client_secret = some secret ∧ resp.client_secret = secret) ∧
      (confirm_payment s2 preq).1.products = s2.products ∧
      List.Forall₂ frameRel s2.orders (confirm_payment s2 preq).1.orders ∧
      (seed_products s3 force j1 j2 j3).1.orders = s3.orders ∧
      (create_product s4 pid p refetch).1.orders = s4.orders := by
  refine ⟨?_, confirm_payment_products s2 preq, confirm_payment_frame s2 preq, ?_, ?_⟩
  · cases hct : compute_totals s req.items with
    | error e => simp [checkout, hct] at hok
    | ok pr =>
      obtain ⟨total, prepared⟩ := pr
      by_cases hneg : total < 0
      · simp [checkout, hct, hneg] at hok
      · have hresp : CheckoutResponse.mk orderId secret total "usd" "pending" = resp := by
          simpa [checkout, hct, hneg] using hok
        refine ⟨{ items := prepared, currency := "usd", total_cents := total
                , status := "pending", payment_intent_id := none
                , client_secret := some secret, customer := req.customer },
          by simp [checkout, hct, hneg], rfl, ?_⟩
        rw [← hresp]
  · cases force with
    | false =>
      by_cases hc : 0 < s3.products.length
      · simp [seed_products, hc]
      · simp [seed_products, hc]
    | true => simp [seed_products]
  · cases refetch <;> rfl

/-- Witness for C8 at an empty checkout and the sample confirmation. -/
theorem claim_C8_secret_set_once_witness :
    (∃ od : Order, (checkout emptyStore "a" "b" ⟨[], none⟩).1.orders
          = emptyStore.orders ++ [("a", od)] ∧
        od.client_secret = some "b" ∧
        (CheckoutResponse.mk "a" "b" 0 "usd" "pending").client_secret = "b") ∧
      (confirm_payment sampleStore ⟨oOid, "sek", true⟩).1.products = sampleStore.products ∧
      List.Forall₂ frameRel sampleStore.orders
        (confirm_payment sampleStore ⟨oOid, "sek", true⟩).1.orders ∧
      (seed_products emptyStore true pOid oOid missingOid).1.orders = emptyStore.orders ∧
      (create_product emptyStore pOid sampleProduct none).1.orders = emptyStore.orders :=
  claim_C8_secret_set_once emptyStore "a" "b" ⟨[], none⟩ ⟨"a", "b", 0, "usd", "pending"⟩
    sampleStore ⟨oOid, "sek", true⟩ emptyStore true pOid oOid missingOid
    emptyStore pOid sampleProduct none rfl

/-- C9: a checkout request whose items all resolve to in-stock products
but whose first offending item carries a quantity below 1 fails with a 500
server error, because the OrderItem snapshot fails pydantic validation and
the blanket handler rewraps that exception; the store is unchanged. -/
theorem claim_C9_negative_quantity (s : Store) (orderId secret : String)
    (cust : Option CustomerInfo) (pre rest : List CheckoutItem) (bad : CheckoutItem)
    (hg : ∀ it ∈ pre, goodItemB s it = true)
    (hv : isValidOid bad.product_id = true)
    (hq : bad.quantity < 1)
    (hres : ∃ p, s.findProduct bad.product_id = some p ∧ p.in_stock = true) :
    checkout s orderId secret ⟨pre ++ bad :: rest, cust⟩
      = (s, .error (.http 500 "ValidationError: OrderItem")) := by
  obtain ⟨p, hp, hstock⟩ := hres
  obtain ⟨k, hke⟩ := findProduct_entry s bad.product_id p hp
  obtain ⟨out, hout, -⟩ := compute_totalsGo_append s (bad :: rest) pre hg 0 []
  have h1 : decide (1 ≤ bad.quantity) = false := decide_eq_false (not_le.mpr hq)
  have hnv : (OrderItem.mk k bad.quantity (some p.price_cents)
      (some (p.price_cents * bad.quantity))).validates = false := by
    simp [OrderItem.validates, h1]
  have hstep := compute_totalsGo_instock s bad rest (0 + requestedSum s pre) ([] ++ out)
    k p hv hke hstock
  have hct : compute_totals s (pre ++ bad :: rest)
      = .error (.exn "ValidationError: OrderItem") := by
    unfold compute_totals
    rw [hout, hstep, hnv]
    simp
  simp [checkout, hct, toServerError]

/-- Witness for C9 at quantity zero on the sample in-stock product. -/
theorem claim_C9_negative_quantity_witness :
    checkout sampleStore "o3" "s4" ⟨[⟨pOid, 0⟩], none⟩
      = (sampleStore, .error (.http 500 "ValidationError: OrderItem")) := by
  have h := claim_C9_negative_quantity sampleStore "o3" "s4" none [] [] ⟨pOid, 0⟩
    (by decide) (by decide) (by decide) ⟨sampleProduct, by decide, rfl⟩
  simpa using h

/-- C10: seed with force=false on an empty catalog skips the early return,
deletes nothing, inserts the three demo records and reports seeded=true
with count 3. -/
theorem claim_C10_seed_empty (s : Store) (i1 i2 i3 : String) (h : s.products = []) :
    (seed_products s false i1 i2 i3).1.products
        = [(i1, demoProduct1), (i2, demoProduct2), (i3, demoProduct3)] ∧
      (seed_products s false i1 i2 i3).1.orders = s.orders ∧
      (seed_products s false i1 i2 i3).2 = ⟨true, 3⟩ := by
  refine ⟨?_, ?_, ?_⟩ <;> simp [seed_products, h]

/-- Witness for C10 on the empty store. -/
theorem claim_C10_seed_empty_witness :
    (seed_products emptyStore false pOid oOid missingOid).1.products
        = [(pOid, demoProduct1), (oOid, demoProduct2), (missingOid, demoProduct3)] ∧
      (seed_products emptyStore false pOid oOid missingOid).1.orders = emptyStore.orders ∧
      (seed_products emptyStore false pOid oOid missingOid).2 = ⟨true, 3⟩ :=
  claim_C10_seed_empty emptyStore pOid oOid missingOid rfl

/-- Counterexample for C6 as stated: the checkout item with the malformed
product id x is surfaced as HTTPException 500 (the InvalidId exception is
caught by the blanket handler), which is not a 4xx-equivalent status. -/
theorem claim_C6_counterexample :
    (checkout emptyStore "a" "b" ⟨[⟨"x", 1⟩], none⟩).2
        = .error (.http 500 (invalidIdMsg "x")) ∧
      isClientStatus 500 = false :=
  ⟨rfl, by decide⟩

/-- C6 amended: an unavailable (well-formed id, absent) product reference
and a mismatched payment token surface as 400 client errors with a
human-readable detail string, while a checkout item whose product_id is
not a well-formed store identifier raises an identifier-parsing exception
that the blanket handler surfaces as a 500 server fault. -/
theorem claim_C6_error_statuses
    (sA : Store) (oidA secA : String) (itA : CheckoutItem) (restA : List CheckoutItem)
    (custA : Option CustomerInfo)
    (sB : Store) (oidB secB : String) (itB : CheckoutItem) (restB : List CheckoutItem)
    (custB : Option CustomerInfo)
    (sC : Store) (reqC : PaymentConfirmRequest) (docC : Order)
    (hA : isValidOid itA.product_id = false)
    (hBv : isValidOid itB.product_id = true)
    (hBn : sB.findProduct itB.product_id = none)
    (hCv : isValidOid reqC.order_id = true)
    (hCf : sC.findOrder reqC.order_id = some docC)
    (hCs : docC.client_secret ≠ some reqC.client_secret) :
    checkout sA oidA secA ⟨itA :: restA, custA⟩
        = (sA, .error (.http 500 (invalidIdMsg itA.product_id))) ∧
      checkout sB oidB secB ⟨itB :: restB, custB⟩
        = (sB, .error (.http 400 ("Product unavailable: " ++ itB.product_id))) ∧
      confirm_payment sC reqC = (sC, .error (.http 400 "Invalid client secret")) ∧
      isClientStatus 400 = true ∧ isClientStatus 500 = false := by
  refine ⟨?_, ?_, ?_, by decide, by decide⟩
  · have hct : compute_totals sA (itA :: restA)
        = .error (.exn (invalidIdMsg itA.product_id)) :=
      compute_totalsGo_invalid sA itA restA 0 [] hA
    simp [checkout, hct, toServerError]
  · have hct : compute_totals sB (itB :: restB)
        = .error (.http 400 ("Product unavailable: " ++ itB.product_id)) :=
      compute_totalsGo_notfound sB itB restB 0 [] hBv (findProduct_entry_none sB _ hBn)
    simp [checkout, hct, toServerError]
  · simp [confirm_payment, hCv, hCf, hCs]

/-- Witness for the amended C6: all three error scenarios concretely. -/
theorem claim_C6_error_statuses_witness :
    checkout sampleStore "w1" "x1" ⟨⟨"zz", 1⟩ :: [], none⟩
        = (sampleStore, .error (.http 500 (invalidIdMsg "zz"))) ∧
      checkout sampleStore "w2" "x2" ⟨⟨missingOid, 1⟩ :: [], none⟩
        = (sampleStore, .error (.http 400 ("Product unavailable: " ++ missingOid))) ∧
      confirm_payment sampleStore ⟨oOid, "nope", true⟩
        = (sampleStore, .error (.http 400 "Invalid client secret")) ∧
      isClientStatus 400 = true ∧ isClientStatus 500 = false :=
  claim_C6_error_statuses sampleStore "w1" "x1" ⟨"zz", 1⟩ [] none
    sampleStore "w2" "x2" ⟨missingOid, 1⟩ [] none
    sampleStore ⟨oOid, "nope", true⟩ sampleOrder
    (by decide) (by decide) (by decide) (by decide) (by decide) (by decide)

end Shop
